import Mathlib

/-!
Shallow embedding of the carlog crate (src/lib.rs): a cargo-style status-line
builder (`Status`) with a consuming `print` operation, the ANSI rendering
performed through the `colored` dependency, and the four preset entry points
layered on the `carlog` dispatch.  Write sinks are modelled as explicit state
(`MStream`), so that printing is a pure state transformer whose written bytes,
attempted operations, flushes and I/O failures are all observable.
-/

namespace Carlog

/-- Cargo terminal colors, from `enum CargoColor` in src/lib.rs. -/
inductive CargoColor where
  | Green
  | Cyan
  | Yellow
  | Red
  | White
  | Black
  deriving DecidableEq, Repr

/-- The `Default` impl for `CargoColor` returns `White` (src/lib.rs lines 54-58). -/
def CargoColor.default : CargoColor := CargoColor.White

/-- Model of a writable sink (`impl Write` in Rust).  `buf` is the byte string
written so far; `budget` is `none` for a sink whose operations always succeed,
or `some n` for a sink whose next `n` write/flush operations succeed and whose
following operations fail with the I/O error code `errv`; `attempts` counts
every write/flush operation attempted on the sink and `flushes` counts the
flushes that completed. -/
structure MStream where
  buf : String
  budget : Option Nat
  errv : Nat
  attempts : Nat
  flushes : Nat
  deriving DecidableEq, Repr

/-- One `write!`/`write_fmt` operation on the sink: appends the formatted data
on success, fails with the sink's error code when the budget is exhausted. -/
def wwrite (s : MStream) (d : String) : MStream × Option Nat :=
  match s.budget with
  | none => ({ s with buf := s.buf ++ d, attempts := s.attempts + 1 }, none)
  | some 0 => ({ s with attempts := s.attempts + 1 }, some s.errv)
  | some (n + 1) =>
    ({ s with buf := s.buf ++ d, budget := some n, attempts := s.attempts + 1 }, none)

/-- One `flush` operation on the sink. -/
def mflush (s : MStream) : MStream × Option Nat :=
  match s.budget with
  | none => ({ s with attempts := s.attempts + 1, flushes := s.flushes + 1 }, none)
  | some 0 => ({ s with attempts := s.attempts + 1 }, some s.errv)
  | some (n + 1) =>
    ({ s with budget := some n, attempts := s.attempts + 1, flushes := s.flushes + 1 }, none)

/-- Rust `String::len`: the UTF-8 byte length of the string (NOT the character
count).  Used by `Status::print` at src/lib.rs line 250. -/
def strLen (s : String) : Nat := s.utf8ByteSize

/-- The string of `n` space characters: `" ".repeat(n)`. -/
def spaces (n : Nat) : String := String.mk (List.replicate n ' ')

/-- Model of the `colored` crate's `ColoredString`: the wrapped input, the
ANSI foreground color code and the bold style flag. -/
structure ColoredString where
  input : String
  fg : Nat
  isBold : Bool
  deriving DecidableEq, Repr

/-- The `colored` crate's `.green()`: foreground code 32. -/
def String.green (s : String) : ColoredString := ⟨s, 32, false⟩

/-- The `colored` crate's `.cyan()`: foreground code 36. -/
def String.cyan (s : String) : ColoredString := ⟨s, 36, false⟩

/-- The `colored` crate's `.bright_yellow()`: foreground code 93. -/
def String.brightYellow (s : String) : ColoredString := ⟨s, 93, false⟩

/-- The `colored` crate's `.bright_red()`: foreground code 91. -/
def String.brightRed (s : String) : ColoredString := ⟨s, 91, false⟩

/-- The `colored` crate's `.white()`: foreground code 37. -/
def String.white (s : String) : ColoredString := ⟨s, 37, false⟩

/-- The `colored` crate's `.black()`: foreground code 30. -/
def String.black (s : String) : ColoredString := ⟨s, 30, false⟩

/-- The `colored` crate's `.bold()` on an already colored string. -/
def ColoredString.mkBold (c : ColoredString) : ColoredString := { c with isBold := true }

/-- The `colored` crate's `Display` for `ColoredString` (colorization enabled,
as the repository's own tests assert): one combined escape sequence
ESC [ style ; fg m, then the input, then the reset sequence ESC [ 0 m. -/
def ColoredString.render (c : ColoredString) : String :=
  "\x1b[" ++ (if c.isBold then "1;" else "") ++ toString c.fg ++ "m" ++ c.input ++ "\x1b[0m"

/-- Simple cargo status log (struct `Status`, src/lib.rs lines 101-114).
Field names are those of the source; the fluent methods, which in Rust share
names with the fields, are modelled as `setJustify`, `setBold`, `setColor`
and `setStatus`. -/
structure Status where
  justify : Bool
  bold : Bool
  color : CargoColor
  status : String
  deriving DecidableEq, Repr

/-- The derived `Default` for `Status`: every field takes its default
(`false`, `false`, white, empty string). -/
def Status.defaultStatus : Status :=
  { justify := false, bold := false, color := CargoColor.default, status := "" }

/-- `Status::new` returns `Self::default()` (src/lib.rs lines 130-132). -/
def Status.new : Status := Status.defaultStatus

/-- `Status::justify` (src/lib.rs lines 143-146): sets the justify flag. -/
def Status.setJustify (s : Status) : Status := { s with justify := true }

/-- `Status::bold` (src/lib.rs lines 156-159): sets the bold flag. -/
def Status.setBold (s : Status) : Status := { s with bold := true }

/-- `Status::color` (src/lib.rs lines 171-174): sets the color. -/
def Status.setColor (s : Status) (color : CargoColor) : Status := { s with color := color }

/-- `Status::status` (src/lib.rs lines 186-192): sets the status text. -/
def Status.setStatus (s : Status) (str : String) : Status := { s with status := str }

/-- `Status::color_str` (src/lib.rs lines 260-276): colors the text with the
selected `colored` method, makes it bold when requested, renders to a string. -/
def color_str (color : CargoColor) (bold : Bool) (str : String) : String :=
  let colored :=
    match color with
    | CargoColor.Green => String.green str
    | CargoColor.Cyan => String.cyan str
    | CargoColor.Yellow => String.brightYellow str
    | CargoColor.Red => String.brightRed str
    | CargoColor.White => String.white str
    | CargoColor.Black => String.black str
  let colored := if bold then colored.mkBold else colored
  colored.render

/-- `Status::print` (src/lib.rs lines 243-258).  Renders the status; when
justified, writes the saturating `12 - status.len()` spaces together with the
rendered status in one formatted write, otherwise writes the rendered status
alone; then writes the message plus a newline, then flushes.  Each fallible
step propagates its error immediately, as the source's question-mark operator
does, and the sink state reached so far is returned alongside the result. -/
def Status.print (st : Status) (stream : MStream) (msg : String) : MStream × Option Nat :=
  let status := color_str st.color st.bold st.status
  let first :=
    if st.justify then
      let padding := spaces (12 - strLen st.status)
      wwrite stream (padding ++ status)
    else
      wwrite stream status
  match first with
  | (s1, some e) => (s1, some e)
  | (s1, none) =>
    match wwrite s1 (msg ++ "\n") with
    | (s2, some e) => (s2, some e)
    | (s2, none) => mflush s2

/-- `enum CarlogStream` (src/lib.rs lines 78-82): stdout, stderr, or a
caller-supplied writable sink. -/
inductive CarlogStream where
  | Stdout
  | Stderr
  | Custom (s : MStream)
  deriving DecidableEq, Repr

/-- The `Default` impl for `CarlogStream` returns `Stdout` (src/lib.rs lines 84-88). -/
def CarlogStream.default : CarlogStream := CarlogStream.Stdout

/-- The process's standard streams, so that printing to stdout or stderr is
observable in the model. -/
structure World where
  stdoutS : MStream
  stderrS : MStream
  deriving DecidableEq, Repr

/-- Outcome of one expansion of the `carlog!` macro: the standard streams
afterwards, the final state of the custom sink when one was passed, and, when
one of the three `.expect(..)` calls fired, the panic payload — the expect
message together with the I/O error code the failed print returned.  A panic
aborts the caller; it is not a value returned to it. -/
structure CarlogResult where
  world : World
  custom : Option MStream
  panicked : Option (String × Nat)
  deriving DecidableEq, Repr

/-- The builder chain of the six-argument `carlog!` arm (src/lib.rs lines
316-323): start from `Status::new`, set color and status text, then apply
`.bold()` when `bold` holds and `.justify()` when `justify` holds. -/
def buildStatus (status : String) (bold justify : Bool) (color : CargoColor) : Status :=
  let s0 := (Status.new.setColor color).setStatus status
  let s1 := if bold then s0.setBold else s0
  if justify then s1.setJustify else s1

/-- The six-argument `carlog!` arm (src/lib.rs lines 316-335): build the
status, dispatch on the stream variant (`print_stdout` and `print_stderr`
are `print` to the respective standard stream), and turn an `Err` from the
print into a panic through `.expect(..)`. -/
def carlog (status message : String) (bold justify : Bool) (color : CargoColor)
    (stream : CarlogStream) (w : World) : CarlogResult :=
  let st := buildStatus status bold justify color
  match stream with
  | CarlogStream.Stdout =>
    match st.print w.stdoutS message with
    | (s1, none) => ⟨{ w with stdoutS := s1 }, none, none⟩
    | (s1, some e) => ⟨{ w with stdoutS := s1 }, none, some ("Failed to print to stdout!", e)⟩
  | CarlogStream.Stderr =>
    match st.print w.stderrS message with
    | (s1, none) => ⟨{ w with stderrS := s1 }, none, none⟩
    | (s1, some e) => ⟨{ w with stderrS := s1 }, none, some ("Failed to print to stderr!", e)⟩
  | CarlogStream.Custom s =>
    match st.print s message with
    | (s1, none) => ⟨w, some s1, none⟩
    | (s1, some e) => ⟨w, some s1, some ("Failed to print to custom stream!", e)⟩

/-- `carlog_info!` with an explicit stream (src/lib.rs lines 358-367):
status justified, bold, cyan; the message gets one space prepended. -/
def carlog_info (status message : String) (stream : CarlogStream) (w : World) : CarlogResult :=
  carlog status (" " ++ message) true true CargoColor.Cyan stream w

/-- Two-argument `carlog_info!` (src/lib.rs lines 355-357): defaults the stream. -/
def carlog_info2 (status message : String) (w : World) : CarlogResult :=
  carlog_info status message CarlogStream.default w

/-- `carlog_ok!` with an explicit stream (src/lib.rs lines 390-399):
status justified, bold, green; the message gets one space prepended. -/
def carlog_ok (status message : String) (stream : CarlogStream) (w : World) : CarlogResult :=
  carlog status (" " ++ message) true true CargoColor.Green stream w

/-- Two-argument `carlog_ok!` (src/lib.rs lines 387-389): defaults the stream. -/
def carlog_ok2 (status message : String) (w : World) : CarlogResult :=
  carlog_ok status message CarlogStream.default w

/-- `carlog_warning!` with an explicit stream (src/lib.rs lines 422-431):
literal status "warning", not justified, not bold, bright yellow; the message
gets a colon and a space prepended. -/
def carlog_warning (message : String) (stream : CarlogStream) (w : World) : CarlogResult :=
  carlog "warning" (": " ++ message) false false CargoColor.Yellow stream w

/-- One-argument `carlog_warning!` (src/lib.rs lines 419-421): defaults the stream. -/
def carlog_warning1 (message : String) (w : World) : CarlogResult :=
  carlog_warning message CarlogStream.default w

/-- `carlog_error!` with an explicit stream (src/lib.rs lines 454-463):
literal status "error", not justified, not bold, bright red; the message gets
a colon and a space prepended. -/
def carlog_error (message : String) (stream : CarlogStream) (w : World) : CarlogResult :=
  carlog "error" (": " ++ message) false false CargoColor.Red stream w

/-- One-argument `carlog_error!` (src/lib.rs lines 451-453): defaults the stream. -/
def carlog_error1 (message : String) (w : World) : CarlogResult :=
  carlog_error message CarlogStream.default w

/-- A fresh sink that never fails: empty buffer, unlimited budget. -/
def freshStream : MStream := ⟨"", none, 0, 0, 0⟩

/-- A fresh world whose standard streams never fail. -/
def freshWorld : World := ⟨freshStream, freshStream⟩

/-- The ANSI foreground code the `colored` crate uses for each `CargoColor`
as selected by `color_str`: green 32, cyan 36, bright yellow 93,
bright red 91, white 37, black 30. -/
def CargoColor.code : CargoColor → Nat
  | CargoColor.Green => 32
  | CargoColor.Cyan => 36
  | CargoColor.Yellow => 93
  | CargoColor.Red => 91
  | CargoColor.White => 37
  | CargoColor.Black => 30

/-- The fixed escape sequence opening a rendered status for a given color and
bold flag: ESC [ then, when bold, the style code followed by a semicolon,
then the foreground code, then m. -/
def escPre (c : CargoColor) (b : Bool) : String :=
  "\x1b[" ++ (if b then "1;" else "") ++ toString c.code ++ "m"

/-- The fixed ANSI reset sequence closing every rendered status. -/
def resetSeq : String := "\x1b[0m"

lemma wwrite_none (s : MStream) (d : String) (h : s.budget = none) :
    wwrite s d = ({ s with buf := s.buf ++ d, attempts := s.attempts + 1 }, none) := by
  simp [wwrite, h]

lemma mflush_none (s : MStream) (h : s.budget = none) :
    mflush s = ({ s with attempts := s.attempts + 1, flushes := s.flushes + 1 }, none) := by
  simp [mflush, h]

/-- Evaluation of `Status::print` on a sink that never fails: the bytes
appended are the justify padding (empty when `justify` is unset), then the
rendered status, then the message, then a newline; three operations are
attempted and one flush completes. -/
lemma print_none (st : Status) (msg : String) (s : MStream) (h : s.budget = none) :
    Status.print st s msg =
      ({ s with
          buf := s.buf ++ ((if st.justify then spaces (12 - strLen st.status) else "") ++
            (color_str st.color st.bold st.status ++ (msg ++ "\n"))),
          attempts := s.attempts + 3, flushes := s.flushes + 1 }, none) := by
  by_cases hj : st.justify <;>
    simp [Status.print, hj, wwrite_none, mflush_none, h, String.append_assoc]

/-- Evaluation of `Status::print` on a sink whose operations fail after `k`
successes, `k < 3`: the sink's error code is propagated as the result and
exactly `k + 1` operations were attempted — the failing one is not retried and
nothing runs after it. -/
lemma print_fail (st : Status) (msg : String) (s : MStream) (k : Nat)
    (hb : s.budget = some k) (hk : k < 3) :
    (Status.print st s msg).2 = some s.errv ∧
      (Status.print st s msg).1.attempts = s.attempts + (k + 1) := by
  interval_cases k <;> by_cases hj : st.justify <;>
    simp [Status.print, wwrite, mflush, hb, hj]

/-- The builder chain of the `carlog!` macro produces exactly the record with
the requested justify, bold, color and status fields. -/
lemma buildStatus_eq (status : String) (b j : Bool) (c : CargoColor) :
    buildStatus status b j c = ⟨j, b, c, status⟩ := by
  cases b <;> cases j <;> rfl

/-- `Status::color_str` always yields the fixed opening escape for the color
and bold flag, then the text unchanged, then the fixed reset sequence. -/
lemma color_str_eq (c : CargoColor) (b : Bool) (t : String) :
    color_str c b t = escPre c b ++ t ++ resetSeq := by
  cases c <;> cases b <;> rfl

/-- Evaluation of the `carlog!` dispatch on a custom sink that never fails. -/
lemma carlog_custom_none (status message : String) (b j : Bool) (c : CargoColor)
    (s : MStream) (w : World) (h : s.budget = none) :
    carlog status message b j c (CarlogStream.Custom s) w =
      ⟨w, some { s with
          buf := s.buf ++ ((if j then spaces (12 - strLen status) else "") ++
            (color_str c b status ++ (message ++ "\n"))),
          attempts := s.attempts + 3, flushes := s.flushes + 1 }, none⟩ := by
  have h2 := print_none ⟨j, b, c, status⟩ message s h
  simp [carlog, buildStatus_eq, h2]

/-- Evaluation of the `carlog!` dispatch on a custom sink that fails within
the three print operations: the macro's `.expect(..)` fires, so the result is
a panic carrying the expect message and the propagated error code. -/
lemma carlog_custom_panic (status message : String) (b j : Bool) (c : CargoColor)
    (s : MStream) (w : World) (k : Nat) (hb : s.budget = some k) (hk : k < 3) :
    (carlog status message b j c (CarlogStream.Custom s) w).panicked =
      some ("Failed to print to custom stream!", s.errv) := by
  have hp := (print_fail (buildStatus status b j c) message s k hb hk).1
  rcases hpr : Status.print (buildStatus status b j c) s message with ⟨s1, e⟩
  rw [hpr] at hp
  simp only at hp
  subst hp
  simp [carlog, hpr]

lemma spaces_zero : spaces 0 = "" := rfl

lemma str_empty_append (s : String) : "" ++ s = s := rfl

/-- Model of the repository's test `test_carlog_info`: the info preset on a
fresh custom sink writes exactly the bytes the Rust test asserts. -/
theorem test_carlog_info_model :
    (carlog_info "Compiling" "carlog v0.1.0" (CarlogStream.Custom freshStream) freshWorld).custom =
      some ⟨"   \x1b[1;36mCompiling\x1b[0m carlog v0.1.0\n", none, 0, 3, 1⟩ := by
  decide

/-- Model of the repository's test `test_carlog_ok`. -/
theorem test_carlog_ok_model :
    (carlog_ok "Compiled" "carlog v0.1.0" (CarlogStream.Custom freshStream) freshWorld).custom =
      some ⟨"    \x1b[1;32mCompiled\x1b[0m carlog v0.1.0\n", none, 0, 3, 1⟩ := by
  decide

/-- Model of the repository's test `test_carlog_warning`. -/
theorem test_carlog_warning_model :
    (carlog_warning "carlog (v0.1.0) generated a warning!"
        (CarlogStream.Custom freshStream) freshWorld).custom =
      some ⟨"\x1b[93mwarning\x1b[0m: carlog (v0.1.0) generated a warning!\n", none, 0, 3, 1⟩ := by
  decide

/-- Model of the repository's test `test_carlog_error`. -/
theorem test_carlog_error_model :
    (carlog_error "carlog (v0.1.0) generated an error!"
        (CarlogStream.Custom freshStream) freshWorld).custom =
      some ⟨"\x1b[91merror\x1b[0m: carlog (v0.1.0) generated an error!\n", none, 0, 3, 1⟩ := by
  decide

/-- C1: for a justified builder with status text of length L (the source's
`String::len`, its UTF-8 byte length), print writes exactly 12 - L space
characters before the rendered status when L is at most 12, and an empty
padding — no negative padding, no truncation of the status — when L
exceeds 12. -/
theorem claim1_justify_padding (st : Status) (msg : String) (s : MStream)
    (hb : s.budget = none) (hj : st.justify = true) :
    (Status.print st s msg).1.buf =
      s.buf ++ ((if strLen st.status ≤ 12 then spaces (12 - strLen st.status) else "") ++
        (color_str st.color st.bold st.status ++ (msg ++ "\n"))) := by
  rw [print_none st msg s hb]
  by_cases hL : strLen st.status ≤ 12
  · simp [hj, hL]
  · have h0 : 12 - strLen st.status = 0 := by omega
    simp [hj, hL, h0, spaces_zero]

/-- Witness for C1 at status "Compiled" (length 8, padding 4). -/
theorem claim1_justify_padding_witness :
    (Status.print ⟨true, false, CargoColor.Green, "Compiled"⟩ freshStream "v").1.buf =
      freshStream.buf ++ ((if strLen "Compiled" ≤ 12 then spaces (12 - strLen "Compiled") else "") ++
        (color_str CargoColor.Green false "Compiled" ++ ("v" ++ "\n"))) :=
  claim1_justify_padding ⟨true, false, CargoColor.Green, "Compiled"⟩ "v" freshStream rfl rfl

/-- C3: for every color, bold flag and non-empty text, the rendered status is
exactly the fixed opening escape for that color and bold flag, then the text,
then the fixed reset sequence — a fixed, deterministic composition in which
bold and color merge into the single opening escape — and in particular the
opening escape is a prefix and the reset sequence a suffix of the rendering. -/
theorem claim3_render_wrapping (c : CargoColor) (b : Bool) (t : String) (_ht : t ≠ "") :
    color_str c b t = escPre c b ++ t ++ resetSeq ∧
      (escPre c b).data <+: (color_str c b t).data ∧
      resetSeq.data <:+ (color_str c b t).data := by
  refine ⟨color_str_eq c b t, ?_, ?_⟩
  · rw [color_str_eq]
    simp [String.data_append, List.append_assoc, List.prefix_append]
  · rw [color_str_eq, String.data_append]
    exact List.suffix_append _ _

/-- Witness for C3 at yellow, not bold, text "warning". -/
theorem claim3_render_wrapping_witness :
    color_str CargoColor.Yellow false "warning" =
      escPre CargoColor.Yellow false ++ "warning" ++ resetSeq :=
  (claim3_render_wrapping CargoColor.Yellow false "warning" (by decide)).1

/-- C6: print writes, in order, the padding (only when justify is set), the
rendered status, immediately the message with no separator, then a newline,
and then flushes: on a sink that never fails the final state appends exactly
padding, rendered status, message and newline to the buffer, attempts three
operations and completes one flush, and the result carries no error. -/
theorem claim6_print_order_and_flush (st : Status) (msg : String) (s : MStream)
    (hb : s.budget = none) :
    Status.print st s msg =
      ({ s with
          buf := s.buf ++ ((if st.justify then spaces (12 - strLen st.status) else "") ++
            (color_str st.color st.bold st.status ++ (msg ++ "\n"))),
          attempts := s.attempts + 3, flushes := s.flushes + 1 }, none) :=
  print_none st msg s hb

/-- Witness for C6 at a bold cyan unjustified builder. -/
theorem claim6_print_order_and_flush_witness :
    Status.print ⟨false, true, CargoColor.Cyan, "info"⟩ freshStream "msg" =
      ({ freshStream with
          buf := freshStream.buf ++ ((if (false : Bool) then spaces (12 - strLen "info") else "") ++
            (color_str CargoColor.Cyan true "info" ++ ("msg" ++ "\n"))),
          attempts := freshStream.attempts + 3, flushes := freshStream.flushes + 1 }, none) :=
  claim6_print_order_and_flush ⟨false, true, CargoColor.Cyan, "info"⟩ "msg" freshStream rfl

/-- C7: a newly constructed status builder has justify false, bold false,
color white and empty status text, and the default destination stream is
standard output. -/
theorem claim7_builder_defaults :
    Status.new.justify = false ∧ Status.new.bold = false ∧
      Status.new.color = CargoColor.White ∧ Status.new.status = "" ∧
      CarlogStream.default = CarlogStream.Stdout :=
  ⟨rfl, rfl, rfl, rfl, rfl⟩

/-- C8: printing is deterministic and depends only on the configuration and
the message: printing the same configuration and message to two independent
sinks appends the same byte string to both. -/
theorem claim8_deterministic_output (st : Status) (msg : String) (s1 s2 : MStream)
    (h1 : s1.budget = none) (h2 : s2.budget = none) :
    ∃ out : String,
      (Status.print st s1 msg).1.buf = s1.buf ++ out ∧
        (Status.print st s2 msg).1.buf = s2.buf ++ out := by
  refine ⟨(if st.justify then spaces (12 - strLen st.status) else "") ++
    (color_str st.color st.bold st.status ++ (msg ++ "\n")), ?_, ?_⟩
  · rw [print_none st msg s1 h1]
  · rw [print_none st msg s2 h2]

/-- Witness for C8 at two sinks in different states. -/
theorem claim8_deterministic_output_witness :
    ∃ out : String,
      (Status.print ⟨true, true, CargoColor.Green, "Compiled"⟩ freshStream "v").1.buf =
          freshStream.buf ++ out ∧
        (Status.print ⟨true, true, CargoColor.Green, "Compiled"⟩ ⟨"pre", none, 5, 7, 9⟩ "v").1.buf =
          (⟨"pre", none, 5, 7, 9⟩ : MStream).buf ++ out :=
  claim8_deterministic_output ⟨true, true, CargoColor.Green, "Compiled"⟩ "v"
    freshStream ⟨"pre", none, 5, 7, 9⟩ rfl rfl

/-- C9: each configuration method updates only its own field: setJustify sets
the justify flag and leaves bold, color and status unchanged, and likewise for
setBold, setColor and setStatus. -/
theorem claim9_setters_frame (st : Status) (c : CargoColor) (s : String) :
    (st.setJustify.justify = true ∧ st.setJustify.bold = st.bold ∧
      st.setJustify.color = st.color ∧ st.setJustify.status = st.status) ∧
    (st.setBold.bold = true ∧ st.setBold.justify = st.justify ∧
      st.setBold.color = st.color ∧ st.setBold.status = st.status) ∧
    ((st.setColor c).color = c ∧ (st.setColor c).justify = st.justify ∧
      (st.setColor c).bold = st.bold ∧ (st.setColor c).status = st.status) ∧
    ((st.setStatus s).status = s ∧ (st.setStatus s).justify = st.justify ∧
      (st.setStatus s).bold = st.bold ∧ (st.setStatus s).color = st.color) :=
  ⟨⟨rfl, rfl, rfl, rfl⟩, ⟨rfl, rfl, rfl, rfl⟩, ⟨rfl, rfl, rfl, rfl⟩, ⟨rfl, rfl, rfl, rfl⟩⟩

/-- C10: the justify padding is computed from the status text's UTF-8 byte
length, not its character count: when the byte length is at least 12 the
print writes no padding at all — even for texts of fewer than 12 characters,
as the witness shows on a six-character, twelve-byte text — and otherwise the
padding is 12 minus the byte length. -/
theorem claim10_byte_length_padding (st : Status) (msg : String) (s : MStream)
    (hb : s.budget = none) (hj : st.justify = true) :
    (12 ≤ strLen st.status →
      (Status.print st s msg).1.buf =
        s.buf ++ (color_str st.color st.bold st.status ++ (msg ++ "\n"))) ∧
    (strLen st.status < 12 →
      (Status.print st s msg).1.buf =
        s.buf ++ (spaces (12 - strLen st.status) ++
          (color_str st.color st.bold st.status ++ (msg ++ "\n")))) := by
  rw [print_none st msg s hb]
  constructor
  · intro hL
    have h0 : 12 - strLen st.status = 0 := by omega
    simp [hj, h0, spaces_zero, str_empty_append]
  · intro hL
    simp [hj]

/-- Witness for C10 at a status of six characters but twelve UTF-8 bytes:
the character count is below 12 yet no padding is written. -/
theorem claim10_byte_length_padding_witness :
    "éééééé".data.length = 6 ∧ strLen "éééééé" = 12 ∧
      (Status.print ⟨true, false, CargoColor.Green, "éééééé"⟩ freshStream "m").1.buf =
        freshStream.buf ++ (color_str CargoColor.Green false "éééééé" ++ ("m" ++ "\n")) :=
  ⟨by decide, by decide,
    (claim10_byte_length_padding ⟨true, false, CargoColor.Green, "éééééé"⟩ "m"
      freshStream rfl rfl).1 (by decide)⟩

/-- C4: on a sink that never fails, the ok and info presets print exactly one
space character between the rendered status and the caller's message (they
pass a message with one space prepended), and the warning and error presets
print exactly a colon and a space there (they pass a message with ": "
prepended); the appended bytes make the prepended prefix explicit. -/
theorem claim4_preset_message_prefixes (stat msg : String) (s : MStream) (w : World)
    (hb : s.budget = none) :
    (carlog_ok stat msg (CarlogStream.Custom s) w).custom =
      some { s with
        buf := s.buf ++ (spaces (12 - strLen stat) ++
          (color_str CargoColor.Green true stat ++ ((" " ++ msg) ++ "\n"))),
        attempts := s.attempts + 3, flushes := s.flushes + 1 } ∧
    (carlog_info stat msg (CarlogStream.Custom s) w).custom =
      some { s with
        buf := s.buf ++ (spaces (12 - strLen stat) ++
          (color_str CargoColor.Cyan true stat ++ ((" " ++ msg) ++ "\n"))),
        attempts := s.attempts + 3, flushes := s.flushes + 1 } ∧
    (carlog_warning msg (CarlogStream.Custom s) w).custom =
      some { s with
        buf := s.buf ++ (color_str CargoColor.Yellow false "warning" ++ ((": " ++ msg) ++ "\n")),
        attempts := s.attempts + 3, flushes := s.flushes + 1 } ∧
    (carlog_error msg (CarlogStream.Custom s) w).custom =
      some { s with
        buf := s.buf ++ (color_str CargoColor.Red false "error" ++ ((": " ++ msg) ++ "\n")),
        attempts := s.attempts + 3, flushes := s.flushes + 1 } := by
  refine ⟨?_, ?_, ?_, ?_⟩
  · rw [carlog_ok, carlog_custom_none _ _ _ _ _ _ _ hb]; simp
  · rw [carlog_info, carlog_custom_none _ _ _ _ _ _ _ hb]; simp
  · rw [carlog_warning, carlog_custom_none _ _ _ _ _ _ _ hb]
    simp [str_empty_append]
  · rw [carlog_error, carlog_custom_none _ _ _ _ _ _ _ hb]
    simp [str_empty_append]

/-- Witness for C4 at the ok preset on a fresh sink. -/
theorem claim4_preset_message_prefixes_witness :
    (carlog_ok "Compiled" "carlog v0.1.0" (CarlogStream.Custom freshStream) freshWorld).custom =
      some { freshStream with
        buf := freshStream.buf ++ (spaces (12 - strLen "Compiled") ++
          (color_str CargoColor.Green true "Compiled" ++ ((" " ++ "carlog v0.1.0") ++ "\n"))),
        attempts := freshStream.attempts + 3, flushes := freshStream.flushes + 1 } :=
  (claim4_preset_message_prefixes "Compiled" "carlog v0.1.0" freshStream freshWorld rfl).1

/-- C5: the presets configure the builder exactly per the fixed table — ok:
caller-supplied status, green, bold, justified; info: caller-supplied status,
cyan, bold, justified; warning: literal "warning", yellow, not bold, not
justified; error: literal "error", red, not bold, not justified — each preset
forwards that configuration (with its message prefix) to the dispatch, and
the arity without a stream argument defaults the destination to standard
output. -/
theorem claim5_preset_table (stat msg : String) (stream : CarlogStream) (w : World) :
    buildStatus stat true true CargoColor.Green = ⟨true, true, CargoColor.Green, stat⟩ ∧
    buildStatus stat true true CargoColor.Cyan = ⟨true, true, CargoColor.Cyan, stat⟩ ∧
    buildStatus "warning" false false CargoColor.Yellow =
      ⟨false, false, CargoColor.Yellow, "warning"⟩ ∧
    buildStatus "error" false false CargoColor.Red = ⟨false, false, CargoColor.Red, "error"⟩ ∧
    carlog_ok stat msg stream w = carlog stat (" " ++ msg) true true CargoColor.Green stream w ∧
    carlog_info stat msg stream w = carlog stat (" " ++ msg) true true CargoColor.Cyan stream w ∧
    carlog_warning msg stream w =
      carlog "warning" (": " ++ msg) false false CargoColor.Yellow stream w ∧
    carlog_error msg stream w = carlog "error" (": " ++ msg) false false CargoColor.Red stream w ∧
    CarlogStream.default = CarlogStream.Stdout ∧
    carlog_ok2 stat msg w = carlog_ok stat msg CarlogStream.Stdout w ∧
    carlog_info2 stat msg w = carlog_info stat msg CarlogStream.Stdout w ∧
    carlog_warning1 msg w = carlog_warning msg CarlogStream.Stdout w ∧
    carlog_error1 msg w = carlog_error msg CarlogStream.Stdout w :=
  ⟨buildStatus_eq stat true true CargoColor.Green, buildStatus_eq stat true true CargoColor.Cyan,
    buildStatus_eq "warning" false false CargoColor.Yellow,
    buildStatus_eq "error" false false CargoColor.Red,
    rfl, rfl, rfl, rfl, rfl, rfl, rfl, rfl, rfl⟩

/-- Counterexample to C2 as stated: with a custom sink whose first operation
fails with I/O error code 7, the ok preset does not surface the failure as a
result value to its immediate caller — its expansion calls `.expect(..)`,
which panics, aborting the caller with the expect message and the error.
The result of the modelled expansion is a panic payload, not a returned
failure value. -/
theorem claim2_result_value_counterexample :
    (carlog_ok "Compiled" "v0.1.0"
        (CarlogStream.Custom ⟨"", some 0, 7, 0, 0⟩) freshWorld).panicked =
      some ("Failed to print to custom stream!", 7) := by
  decide

/-- C2 amended: the `Status::print` path surfaces an I/O failure during any
write or flush as a result value propagated unchanged to the immediate
caller, fail-fast — the failing operation is attempted exactly once and
nothing runs after it; the four message presets, by contrast, panic on such a
failure through `.expect(..)`, aborting with the propagated error rather than
returning a failure value. -/
theorem claim2_io_failure_propagation_amended :
    (∀ (st : Status) (msg : String) (s : MStream) (k : Nat),
        s.budget = some k → k < 3 →
        (Status.print st s msg).2 = some s.errv ∧
          (Status.print st s msg).1.attempts = s.attempts + (k + 1)) ∧
    (∀ (stat msg : String) (s : MStream) (w : World) (k : Nat),
        s.budget = some k → k < 3 →
        (carlog_ok stat msg (CarlogStream.Custom s) w).panicked =
            some ("Failed to print to custom stream!", s.errv) ∧
          (carlog_info stat msg (CarlogStream.Custom s) w).panicked =
            some ("Failed to print to custom stream!", s.errv) ∧
          (carlog_warning msg (CarlogStream.Custom s) w).panicked =
            some ("Failed to print to custom stream!", s.errv) ∧
          (carlog_error msg (CarlogStream.Custom s) w).panicked =
            some ("Failed to print to custom stream!", s.errv)) := by
  constructor
  · intro st msg s k hb hk
    exact print_fail st msg s k hb hk
  · intro stat msg s w k hb hk
    exact ⟨carlog_custom_panic stat (" " ++ msg) true true CargoColor.Green s w k hb hk,
      carlog_custom_panic stat (" " ++ msg) true true CargoColor.Cyan s w k hb hk,
      carlog_custom_panic "warning" (": " ++ msg) false false CargoColor.Yellow s w k hb hk,
      carlog_custom_panic "error" (": " ++ msg) false false CargoColor.Red s w k hb hk⟩

/-- Witness for the amended C2: a sink failing on its first operation with
code 7 makes print return that error. -/
theorem claim2_io_failure_propagation_amended_witness :
    (Status.print ⟨false, false, CargoColor.White, "s"⟩ ⟨"", some 0, 7, 0, 0⟩ "m").2 = some 7 :=
  (claim2_io_failure_propagation_amended.1 ⟨false, false, CargoColor.White, "s"⟩ "m"
    ⟨"", some 0, 7, 0, 0⟩ 0 rfl (by decide)).1

end Carlog

